import Mathlib

/-!
Verification of the unifi-node client library (src/index.ts).

We shallowly embed the JavaScript values and the core routines of the
library: the event handler, the response-unwrapping step of the request
pipeline, the transport-error classifier of the response interceptor,
the constructor defaults, the logout transition, the event-connection
setup, and the MAC-address collection lookups.
-/

namespace UniFi

/-- A JavaScript value, as manipulated by the library: `null`, `undefined`,
booleans, numbers (modelled as integers; every numeric literal in the code
paths under study is integral), strings, arrays and plain objects. -/
inductive JSVal where
  | null : JSVal
  | undef : JSVal
  | bool : Bool → JSVal
  | num : Int → JSVal
  | str : String → JSVal
  | arr : List JSVal → JSVal
  | obj : List (String × JSVal) → JSVal
deriving Repr

/-- JavaScript truthiness: `null`, `undefined`, `false`, `0`, and the empty
string are falsy; every array and object is truthy. -/
def JSVal.truthy : JSVal → Bool
  | .null => false
  | .undef => false
  | .bool b => b
  | .num n => n != 0
  | .str s => s != ""
  | .arr _ => true
  | .obj _ => true

/-- Look up a key in an object field list (first binding wins, as in a
JavaScript object literal read left to right the last would win; the
concrete objects in this development never bind a key twice). -/
def lookupField : List (String × JSVal) → String → Option JSVal
  | [], _ => none
  | (k, v) :: rest, key => if k = key then some v else lookupField rest key

/-- Total property access `v[k]`: reading a property of an object yields the
field or `undefined`; reading a property of a primitive yields `undefined`
(primitives are boxed in JavaScript and the properties used here never
exist on the box). Reading a property of `null`/`undefined` would throw in
JavaScript; callers guard with truthiness checks, see `jsGetE`. -/
def jsGet (v : JSVal) (k : String) : JSVal :=
  match v with
  | .obj fs => (lookupField fs k).getD .undef
  | _ => (.undef)

/-- Property access that models the JavaScript `TypeError` thrown when the
receiver is `null` or `undefined`. -/
def jsGetE (v : JSVal) (k : String) : Except String JSVal :=
  match v with
  | .null => .error "TypeError: cannot read properties of null"
  | .undef => .error "TypeError: cannot read properties of undefined"
  | _ => .ok (jsGet v k)

theorem jsGetE_of_truthy (v : JSVal) (k : String) (h : v.truthy = true) :
    jsGetE v k = .ok (jsGet v k) := by
  cases v <;> simp_all [JSVal.truthy, jsGetE]

/-- Optional chaining `v?.k`: yields `undefined` instead of throwing when
the receiver is `null` or `undefined`. -/
def jsGetOpt (v : JSVal) (k : String) : JSVal :=
  match v with
  | .null => .undef
  | .undef => .undef
  | _ => jsGet v k

mutual

/-- JavaScript string conversion, as performed by template-literal
interpolation. Arrays stringify as their elements joined by commas with
`null`/`undefined` elements blank; plain objects as `[object Object]`. -/
def jsToString : JSVal → String
  | .null => "null"
  | .undef => "undefined"
  | .bool b => cond b "true" "false"
  | .num n => toString n
  | .str s => s
  | .obj _ => "[object Object]"
  | .arr xs => jsListToString xs

def jsListToString : List JSVal → String
  | [] => ""
  | [x] => jsElemToString x
  | x :: rest => jsElemToString x ++ "," ++ jsListToString rest

def jsElemToString : JSVal → String
  | .null => ""
  | .undef => ""
  | v => jsToString v

end

/-- JavaScript strict equality `v === lit` against a string literal, as in
the `switch` of `handleEvent` and the `rc === ok` check of `request`. -/
def jsStrEq (v : JSVal) (lit : String) : Bool :=
  match v with
  | .str s => s == lit
  | _ => false

/-- `UniFiError` (src/index.ts:253-261): an `Error` subclass carrying the
fixed name `UniFiError` and an optional machine-readable `code`. -/
structure UniFiErr where
  message : String
  code : Option String := none
deriving Repr, DecidableEq

/-! ## Event Stream Manager: `handleEvent` (src/index.ts:665-691)

An emitted notification is modelled as a `(name, payload)` pair in emission
order; generic `event` notifications carry the object
`{ type: eventType, data: eventData }` the code constructs. -/

/-- The `switch` on `event.meta.message` in `handleEvent`: the four
recognised tags emit their named notification with the data payload, any
other tag falls to the `default` branch emitting a generic `event`. -/
def routeEvent (eventType eventData : JSVal) : List (String × JSVal) :=
  match eventType with
  | .str s =>
    if s == "sta:connect" then [("client.connected", eventData)]
    else if s == "sta:disconnect" then [("client.disconnected", eventData)]
    else if s == "ap:detected" then [("device.detected", eventData)]
    else if s == "ap:lost" then [("device.lost", eventData)]
    else [("event", .obj [("type", eventType), ("data", eventData)])]
  | _ => [("event", .obj [("type", eventType), ("data", eventData)])]

/-- `handleEvent(event)`: drops the frame when `!event || !event.meta`,
otherwise routes `event.meta.message` through the `switch` and always
appends a `raw_event` notification carrying the original envelope.
Returns the list of emitted notifications; `.error` models a thrown
JavaScript `TypeError` (which the guards make unreachable). -/
def handleEvent (event : JSVal) : Except String (List (String × JSVal)) :=
  if !event.truthy then .ok []
  else match jsGetE event "meta" with
  | .error msg => .error msg
  | .ok meta =>
    if !meta.truthy then .ok []
    else match jsGetE meta "message" with
    | .error msg => .error msg
    | .ok eventType =>
      match jsGetE event "data" with
      | .error msg => .error msg
      | .ok d =>
        let eventData := if d.truthy then d else .obj []
        .ok (routeEvent eventType eventData ++ [("raw_event", event)])

/-- The payload a routed notification carries: `event.data || {}`. -/
def eventDataOf (event : JSVal) : JSVal :=
  if (jsGet event "data").truthy then jsGet event "data" else .obj []

/-- How many notifications named `name` a handler run emitted. -/
def emitCount (l : List (String × JSVal)) (name : String) : Nat :=
  l.countP (fun p => p.1 == name)

/-- The five named notification channels of the event handler; anything the
library emits on one of these (`client.*`, `device.*`, or the generic
`event` channel) is a typed notification, as opposed to `raw_event`. -/
def typedNames : List String :=
  ["client.connected", "client.disconnected", "device.detected", "device.lost", "event"]

/-- How many typed notifications a handler run emitted. -/
def typedCount (l : List (String × JSVal)) : Nat :=
  (typedNames.map (emitCount l)).sum

/-! ## Request Pipeline: response unwrapping (src/index.ts:435-441) -/

/-- The success test `response.data && response.data.meta &&
response.data.meta.rc === ok` (short-circuit `&&` makes the inner
property reads safe; `jsGet` is total so the unguarded form is equal). -/
def rcIsOk (body : JSVal) : Bool :=
  body.truthy && (jsGet body "meta").truthy && jsStrEq (jsGet (jsGet body "meta") "rc") "ok"

/-- The message of the application error:
`API Error: ${response.data?.meta?.msg || Unknown error}`. -/
def apiErrorMessage (body : JSVal) : String :=
  let m := jsGetOpt (jsGetOpt body "meta") "msg"
  "API Error: " ++ (if m.truthy then jsToString m else "Unknown error")

/-- The tail of `request` after transport success: unwraps a success
envelope into `response.data.data || response.data`, and turns any other
body into a thrown `UniFiError` with no code. -/
def processResponse (body : JSVal) : Except UniFiErr JSVal :=
  if rcIsOk body then
    .ok (if (jsGet body "data").truthy then jsGet body "data" else body)
  else
    .error { message := apiErrorMessage body, code := none }

/-! ## Transport Adapter: response-error interceptor (src/index.ts:330-350) -/

/-- A transport-level failure as axios presents it to the rejection
interceptor: an optional HTTP status (`error.response?.status`) and an
optional system error code (`error.code`). -/
structure TransportError where
  status : Option Nat
  sysCode : Option String
deriving Repr, DecidableEq

/-- What the rejection interceptor throws: either a freshly constructed
`UniFiError` or the original transport error re-raised unmodified. -/
inductive InterceptedError where
  | unifi : UniFiErr → InterceptedError
  | passthrough : TransportError → InterceptedError
deriving Repr, DecidableEq

/-- The rejection interceptor: 401 clears the authenticated flag and
throws an `INVALID_CREDENTIALS` error; `ECONNREFUSED`/`ENOTFOUND` throws a
`CONNECTION_ERROR` naming the base URL; anything else is re-raised.
Returns the new `isAuthenticated` flag and what is thrown. -/
def interceptError (baseURL : String) (isAuth : Bool) (err : TransportError) :
    Bool × InterceptedError :=
  if err.status == some 401 then
    (false, .unifi { message := "Authentication failed", code := some "INVALID_CREDENTIALS" })
  else if err.sysCode == some "ECONNREFUSED" || err.sysCode == some "ENOTFOUND" then
    (isAuth, .unifi { message := "Cannot connect to UniFi Controller at " ++ baseURL,
                      code := some "CONNECTION_ERROR" })
  else
    (isAuth, .passthrough err)

/-! ## Constructor (src/index.ts:279-312) -/

/-- The caller-supplied configuration object. `none` models an absent
field; the required trio are also `Option` because JavaScript callers can
omit them (the test suite passes `{}`). -/
structure UniFiConfigIn where
  host : Option String := none
  port : Option Nat := none
  username : Option String := none
  password : Option String := none
  site : Option String := none
  ssl : Option Bool := none
  strictSSL : Option Bool := none
  timeout : Option Nat := none
deriving Repr, DecidableEq

/-- `this.options` after the defaults have been merged with the caller
configuration (spread: a provided field wins, an absent one falls back). -/
structure ResolvedConfig where
  host : String
  port : Nat
  username : String
  password : String
  site : String
  ssl : Bool
  strictSSL : Bool
  timeout : Nat
deriving Repr, DecidableEq

/-- `this.baseURL`: the template literal
`<https or http>://<host>:<port>` built by the constructor. -/
def buildBaseURL (ssl : Bool) (host : String) (port : Nat) : String :=
  (if ssl then "https" else "http") ++ "://" ++ host ++ ":" ++ toString port

/-- The constructor: merges defaults, rejects a falsy (absent or empty)
host, username or password with a code-less `UniFiError`, and builds the
base URL `<scheme>://<host>:<port>`. -/
def mkUniFiAPI (opts : UniFiConfigIn) : Except UniFiErr (ResolvedConfig × String) :=
  match opts.host, opts.username, opts.password with
  | some h, some u, some p =>
    if h == "" || u == "" || p == "" then
      .error { message := "Host, username, and password are required", code := none }
    else
      let cfg : ResolvedConfig :=
        { host := h
          port := opts.port.getD 8443
          username := u
          password := p
          site := opts.site.getD "default"
          ssl := opts.ssl.getD true
          strictSSL := opts.strictSSL.getD false
          timeout := opts.timeout.getD 30000 }
      .ok (cfg, buildBaseURL cfg.ssl cfg.host cfg.port)
  | _, _, _ =>
    .error { message := "Host, username, and password are required", code := none }

/-! ## Session State: `logout` (src/index.ts:386-405) and
`enableEvents` (src/index.ts:603-649) -/

/-- The mutable session state of a `UniFiAPI` instance; the open event
socket is modelled as an opaque connection handle. -/
structure APIState where
  isAuthenticated : Bool
  cookies : String
  csrfToken : String
  eventSocket : Option Nat
deriving Repr, DecidableEq

/-- One `logout()` run: the final state, the notifications emitted during
it, and the resolved value. -/
structure LogoutRun where
  state : APIState
  emitted : List String
  returned : Bool
deriving Repr, DecidableEq

/-- `logout()`: when the `POST /api/logout` succeeds, clears the whole
session, closes the event socket if open, and emits `disconnected`; when
it throws, the `catch` only clears the authenticated flag and still
resolves `true`. -/
def logout (st : APIState) (serverLogoutSucceeds : Bool) : LogoutRun :=
  if serverLogoutSucceeds then
    { state := { isAuthenticated := false, cookies := "", csrfToken := "", eventSocket := none }
      emitted := ["disconnected"]
      returned := true }
  else
    { state := { st with isAuthenticated := false }
      emitted := []
      returned := true }

/-- How one `enableEvents()` call resolved. -/
inductive EnableOutcome where
  | loginFailed : EnableOutcome
  | reusedExisting : EnableOutcome
  | openedNew : Nat → EnableOutcome
deriving Repr, DecidableEq

/-- The number of fresh persistent connections an outcome opened. -/
def EnableOutcome.opened : EnableOutcome → Nat
  | .openedNew _ => 1
  | _ => 0

/-- `enableEvents()`: first `ensureAuthenticated()` (a lazy `login()` whose
server outcome is the `loginSucceeds` oracle; a failed login clears the
authenticated flag and rejects), then an early `return true` when
`this.eventSocket` already exists, otherwise a fresh socket is stored. -/
def enableEvents (st : APIState) (loginSucceeds : Bool) (newConn : Nat) :
    APIState × EnableOutcome :=
  if !st.isAuthenticated && !loginSucceeds then
    ({ st with isAuthenticated := false }, .loginFailed)
  else
    let st1 := { st with isAuthenticated := true }
    match st1.eventSocket with
    | some _ => (st1, .reusedExisting)
    | none => ({ st1 with eventSocket := some newConn }, .openedNew newConn)

/-! ## Domain Operations: MAC lookups (src/index.ts:454-461, 506-513) and
per-identifier stats (src/index.ts:587-598) -/

/-- A device record as far as `getDevice` reads it: the MAC identifier
plus the rest of the record, kept opaque. -/
structure DeviceRec where
  mac : String
  rest : JSVal
deriving Repr

/-- A client record as far as `getClient` reads it. -/
structure ClientRec where
  mac : String
  rest : JSVal
deriving Repr

/-- `toLowerCase()` character by character; `Char.toLower` agrees with the
JavaScript method on the ASCII alphabet, which covers MAC-address strings. -/
def strLower (s : String) : String :=
  String.mk (s.data.map Char.toLower)

/-- `getDevice(mac)` applied to the fetched collection:
`devices.find(d => d.mac.toLowerCase() === mac.toLowerCase())`, rejecting
with a code-less not-found `UniFiError` when absent. -/
def getDeviceFrom (devices : List DeviceRec) (mac : String) : Except UniFiErr DeviceRec :=
  match devices.find? (fun d => strLower d.mac == strLower mac) with
  | some d => .ok d
  | none => .error { message := "Device with MAC " ++ mac ++ " not found", code := none }

/-- `getClient(mac)` applied to the fetched collection. -/
def getClientFrom (clients : List ClientRec) (mac : String) : Except UniFiErr ClientRec :=
  match clients.find? (fun c => strLower c.mac == strLower mac) with
  | some c => .ok c
  | none => .error { message := "Client with MAC " ++ mac ++ " not found", code := none }

/-- `getDeviceStats(mac)` applied to the collection the controller returned
for `/stat/device/<mac>`: `devices[0] || null`. -/
def getDeviceStats (devices : List JSVal) : JSVal :=
  match devices with
  | [] => .null
  | x :: _ => if x.truthy then x else .null

/-- `getClientStats(mac)` applied to the collection the controller returned
for `/stat/user/<mac>`: `clients[0] || null`. -/
def getClientStats (clients : List JSVal) : JSVal :=
  match clients with
  | [] => .null
  | x :: _ => if x.truthy then x else .null

/-! ## Claims -/

/-- C3 counterexample: when the server-side logout call throws, `logout()`
emits no `disconnected` notification and leaves the open event connection
open, contradicting the claim that every execution emits `disconnected`
and closes the connection. -/
theorem logout_throw_skips_disconnect :
    (logout ⟨true, "c", "t", some 0⟩ false).emitted = [] ∧
    (logout ⟨true, "c", "t", some 0⟩ false).state.eventSocket = some 0 :=
  ⟨rfl, rfl⟩

/-- C3 (amended): every execution of `logout()` ends with
`isAuthenticated = false` and resolves `true`; when the server-side call
succeeds the whole session is cleared, the event socket is closed and
`disconnected` is emitted; when it throws, only the authenticated flag is
cleared — no notification is emitted and the socket is untouched. -/
theorem logout_always_deauthenticates (st : APIState) (ok : Bool) :
    ((logout st ok).state.isAuthenticated = false ∧ (logout st ok).returned = true) ∧
    (ok = true →
      logout st ok = ⟨⟨false, "", "", none⟩, ["disconnected"], true⟩) ∧
    (ok = false →
      logout st ok = ⟨⟨false, st.cookies, st.csrfToken, st.eventSocket⟩, [], true⟩) := by
  cases ok <;> simp [logout]

/-- C3 witness: the amended theorem at a concrete authenticated state with
an open socket, on the successful path. -/
theorem logout_always_deauthenticates_witness :
    logout ⟨true, "c", "t", some 0⟩ true = ⟨⟨false, "", "", none⟩, ["disconnected"], true⟩ :=
  (logout_always_deauthenticates ⟨true, "c", "t", some 0⟩ true).2.1 rfl

/-- C5: the rejection interceptor turns a 401 status into an
`INVALID_CREDENTIALS` authentication error and clears the authenticated
flag; turns `ECONNREFUSED`/`ENOTFOUND` into a `CONNECTION_ERROR` naming
the base URL; and re-raises every other transport error unmodified. -/
theorem interceptor_classifies_errors (baseURL : String) (isAuth : Bool) (err : TransportError) :
    (err.status = some 401 →
      interceptError baseURL isAuth err =
        (false, .unifi ⟨"Authentication failed", some "INVALID_CREDENTIALS"⟩)) ∧
    (err.status ≠ some 401 →
      (err.sysCode = some "ECONNREFUSED" ∨ err.sysCode = some "ENOTFOUND") →
      interceptError baseURL isAuth err =
        (isAuth, .unifi ⟨"Cannot connect to UniFi Controller at " ++ baseURL,
                         some "CONNECTION_ERROR"⟩)) ∧
    (err.status ≠ some 401 → err.sysCode ≠ some "ECONNREFUSED" →
      err.sysCode ≠ some "ENOTFOUND" →
      interceptError baseURL isAuth err = (isAuth, .passthrough err)) := by
  refine ⟨fun h => ?_, fun h hc => ?_, fun h h1 h2 => ?_⟩
  · simp [interceptError, h]
  · rcases hc with hc | hc <;> simp [interceptError, h, hc]
  · simp [interceptError, h, h1, h2]

/-- C5 witness: the three branches of the classifier at concrete transport
failures against a concrete base URL. -/
theorem interceptor_classifies_errors_witness :
    interceptError "https://test.local:8443" true ⟨some 401, none⟩ =
      (false, .unifi ⟨"Authentication failed", some "INVALID_CREDENTIALS"⟩) ∧
    interceptError "https://test.local:8443" true ⟨none, some "ECONNREFUSED"⟩ =
      (true, .unifi ⟨"Cannot connect to UniFi Controller at https://test.local:8443",
                     some "CONNECTION_ERROR"⟩) ∧
    interceptError "https://test.local:8443" true ⟨some 500, some "EOTHER"⟩ =
      (true, .passthrough ⟨some 500, some "EOTHER"⟩) :=
  ⟨(interceptor_classifies_errors "https://test.local:8443" true ⟨some 401, none⟩).1 rfl,
   by
    have h := (interceptor_classifies_errors "https://test.local:8443" true
      ⟨none, some "ECONNREFUSED"⟩).2.1 (by simp) (Or.inl rfl)
    simpa using h,
   by
    have h := (interceptor_classifies_errors "https://test.local:8443" true
      ⟨some 500, some "EOTHER"⟩).2.2 (by simp) (by simp) (by simp)
    simpa using h⟩

/-- C6: constructing with any of host, username or password absent throws
the configuration error; constructing with the three required fields
present (and non-empty) and no optional fields yields exactly the
documented defaults: port 8443, site `default`, ssl on, strict certificate
validation off, timeout 30000 ms. -/
theorem constructor_defaults (opts : UniFiConfigIn) :
    ((opts.host = none ∨ opts.username = none ∨ opts.password = none) →
      mkUniFiAPI opts = .error ⟨"Host, username, and password are required", none⟩) ∧
    (∀ h u p, opts = { host := some h, username := some u, password := some p } →
      h ≠ "" → u ≠ "" → p ≠ "" →
      mkUniFiAPI opts =
        .ok ({ host := h, port := 8443, username := u, password := p, site := "default",
               ssl := true, strictSSL := false, timeout := 30000 },
             buildBaseURL true h 8443)) := by
  constructor
  · intro habs
    obtain ⟨oh, oport, ou, op, osite, ossl, ostrict, otime⟩ := opts
    rcases habs with h | h | h <;> simp_all <;>
      cases oh <;> cases ou <;> cases op <;> simp_all [mkUniFiAPI]
  · intro h u p heq hh hu hp
    subst heq
    simp [mkUniFiAPI, hh, hu, hp]

/-- C6 witness: both halves at concrete inputs — an empty configuration is
rejected, and a minimal full configuration resolves to the defaults. -/
theorem constructor_defaults_witness :
    mkUniFiAPI {} = .error ⟨"Host, username, and password are required", none⟩ ∧
    mkUniFiAPI { host := some "test.local", username := some "user", password := some "pass" } =
      .ok ({ host := "test.local", port := 8443, username := "user", password := "pass",
             site := "default", ssl := true, strictSSL := false, timeout := 30000 },
           buildBaseURL true "test.local" 8443) :=
  ⟨(constructor_defaults {}).1 (Or.inl rfl),
   (constructor_defaults _).2 "test.local" "user" "pass" rfl
     (by simp) (by simp) (by simp)⟩

/-- C7: two `enableEvents()` calls in succession open at most one
persistent connection, and when the first call did not fail its login the
second is a no-op resolving with success and reusing the existing
connection (state unchanged). -/
theorem enableEvents_idempotent (st : APIState) (l1 l2 : Bool) (c1 c2 : Nat) :
    ((enableEvents st l1 c1).2.opened +
      (enableEvents (enableEvents st l1 c1).1 l2 c2).2.opened ≤ 1) ∧
    ((enableEvents st l1 c1).2 ≠ .loginFailed →
      enableEvents (enableEvents st l1 c1).1 l2 c2 =
        ((enableEvents st l1 c1).1, .reusedExisting)) := by
  obtain ⟨a, ck, cs, sock⟩ := st
  cases a <;> cases l1 <;> cases l2 <;> cases sock <;>
    simp [enableEvents, EnableOutcome.opened]

/-- C7 witness: from a fresh unauthenticated state with a succeeding
login, the first call opens connection 7 and the second reuses it. -/
theorem enableEvents_idempotent_witness :
    enableEvents (enableEvents ⟨false, "", "", none⟩ true 7).1 true 8 =
      ((enableEvents ⟨false, "", "", none⟩ true 7).1, .reusedExisting) :=
  (enableEvents_idempotent ⟨false, "", "", none⟩ true true 7 8).2 (by simp [enableEvents])

/-- C10: the per-identifier stats calls return the first element of the
collection the controller answered with, and return `null` — their result
is a value, not a thrown not-found error — when the collection is empty or
its first element is a null-ish (falsy) value. -/
theorem stats_first_or_null (x : JSVal) (rest : List JSVal) :
    (getDeviceStats [] = .null ∧ getClientStats [] = .null) ∧
    (x.truthy = true → getDeviceStats (x :: rest) = x ∧ getClientStats (x :: rest) = x) ∧
    (x.truthy = false → getDeviceStats (x :: rest) = .null ∧ getClientStats (x :: rest) = .null) := by
  refine ⟨⟨rfl, rfl⟩, fun h => ?_, fun h => ?_⟩ <;>
    simp [getDeviceStats, getClientStats, h]

/-- C10 witness: a singleton collection holding one record yields that
record on both stats calls; the truthiness hypothesis is discharged at the
concrete record. -/
theorem stats_first_or_null_witness :
    getDeviceStats [JSVal.obj [("mac", JSVal.str "aa")]] = JSVal.obj [("mac", JSVal.str "aa")] ∧
    getClientStats [JSVal.obj [("mac", JSVal.str "aa")]] = JSVal.obj [("mac", JSVal.str "aa")] :=
  (stats_first_or_null (JSVal.obj [("mac", JSVal.str "aa")]) []).2.1 rfl

/-- C2: after transport success, a success-sentinel envelope unwraps to
its data section (or to the whole envelope when no data section is
present), and any other envelope becomes an application error carrying the
server-supplied message, or the generic fallback when none was supplied. -/
theorem request_unwraps_envelope (body : JSVal) :
    (rcIsOk body = true →
      ((jsGet body "data").truthy = true → processResponse body = .ok (jsGet body "data")) ∧
      (jsGet body "data" = .undef → processResponse body = .ok body)) ∧
    (rcIsOk body = false →
      (∀ s, jsGetOpt (jsGetOpt body "meta") "msg" = .str s → s ≠ "" →
        processResponse body = .error ⟨"API Error: " ++ s, none⟩) ∧
      (jsGetOpt (jsGetOpt body "meta") "msg" = .undef →
        processResponse body = .error ⟨"API Error: Unknown error", none⟩)) := by
  refine ⟨fun hok => ⟨fun hd => ?_, fun hd => ?_⟩, fun hbad => ⟨fun s hs hne => ?_, fun hs => ?_⟩⟩
  · simp [processResponse, hok, hd]
  · simp [processResponse, hok, hd, JSVal.truthy]
  · simp [processResponse, hbad, apiErrorMessage, hs, JSVal.truthy, hne, jsToString]
  · simp [processResponse, hbad, apiErrorMessage, hs, JSVal.truthy]

/-- C2 witness: a success envelope with an array data section unwraps to
the array; a failure envelope with `msg` set fails with that message. -/
theorem request_unwraps_envelope_witness :
    processResponse (.obj [("meta", .obj [("rc", .str "ok")]), ("data", .arr [.str "d"])]) =
      .ok (.arr [.str "d"]) ∧
    processResponse (.obj [("meta", .obj [("rc", .str "error"), ("msg", .str "boom")])]) =
      .error ⟨"API Error: boom", none⟩ := by
  constructor
  · have h := (request_unwraps_envelope
      (.obj [("meta", .obj [("rc", .str "ok")]), ("data", .arr [.str "d"])])).1 rfl |>.1 rfl
    simpa using h
  · have h := (request_unwraps_envelope
      (.obj [("meta", .obj [("rc", .str "error"), ("msg", .str "boom")])])).2 rfl |>.1
      "boom" rfl (by simp)
    simpa using h

/-- Helper: `find?` returns the head of the first matching suffix. -/
theorem find?_first_match {α : Type} (p : α → Bool) (pre post : List α) (d : α)
    (hpre : ∀ e ∈ pre, p e = false) (hd : p d = true) :
    (pre ++ d :: post).find? p = some d := by
  induction pre with
  | nil => simp [List.find?, hd]
  | cons x xs ih =>
    have hx := hpre x (by simp)
    simp only [List.cons_append, List.find?, hx]
    exact ih fun e he => hpre e (by simp [he])

/-- C8: a MAC lookup over a fetched collection returns the first entry
whose MAC matches the argument up to letter case, rejects with a not-found
error when no entry matches, and two arguments that agree up to case give
the same lookup result. -/
theorem mac_lookup_case_insensitive (devices : List DeviceRec) (clients : List ClientRec)
    (mac mac2 : String) :
    ((∀ d ∈ devices, strLower d.mac ≠ strLower mac) →
      getDeviceFrom devices mac = .error ⟨"Device with MAC " ++ mac ++ " not found", none⟩) ∧
    ((∀ c ∈ clients, strLower c.mac ≠ strLower mac) →
      getClientFrom clients mac = .error ⟨"Client with MAC " ++ mac ++ " not found", none⟩) ∧
    (∀ pre d post, devices = pre ++ d :: post → strLower d.mac = strLower mac →
      (∀ e ∈ pre, strLower e.mac ≠ strLower mac) → getDeviceFrom devices mac = .ok d) ∧
    (∀ pre c post, clients = pre ++ c :: post → strLower c.mac = strLower mac →
      (∀ e ∈ pre, strLower e.mac ≠ strLower mac) → getClientFrom clients mac = .ok c) ∧
    (strLower mac = strLower mac2 →
      (getDeviceFrom devices mac).toOption = (getDeviceFrom devices mac2).toOption ∧
      (getClientFrom clients mac).toOption = (getClientFrom clients mac2).toOption) := by
  refine ⟨fun hnone => ?_, fun hnone => ?_,
          fun pre d post hsplit hd hpre => ?_, fun pre c post hsplit hc hpre => ?_,
          fun hcase => ?_⟩
  · have : devices.find? (fun d => strLower d.mac == strLower mac) = none := by
      rw [List.find?_eq_none]
      intro a ha
      simpa using hnone a ha
    simp [getDeviceFrom, this]
  · have : clients.find? (fun c => strLower c.mac == strLower mac) = none := by
      rw [List.find?_eq_none]
      intro a ha
      simpa using hnone a ha
    simp [getClientFrom, this]
  · subst hsplit
    have : (pre ++ d :: post).find? (fun d => strLower d.mac == strLower mac) = some d :=
      find?_first_match _ pre post d (fun e he => by simpa using hpre e he) (by simpa using hd)
    simp [getDeviceFrom, this]
  · subst hsplit
    have : (pre ++ c :: post).find? (fun c => strLower c.mac == strLower mac) = some c :=
      find?_first_match _ pre post c (fun e he => by simpa using hpre e he) (by simpa using hc)
    simp [getClientFrom, this]
  · have hp : (fun d : DeviceRec => strLower d.mac == strLower mac) =
        (fun d : DeviceRec => strLower d.mac == strLower mac2) := by
      funext d; rw [hcase]
    have hq : (fun c : ClientRec => strLower c.mac == strLower mac) =
        (fun c : ClientRec => strLower c.mac == strLower mac2) := by
      funext c; rw [hcase]
    constructor
    · unfold getDeviceFrom
      rw [hp]
      cases devices.find? (fun d => strLower d.mac == strLower mac2) <;> rfl
    · unfold getClientFrom
      rw [hq]
      cases clients.find? (fun c => strLower c.mac == strLower mac2) <;> rfl

/-- C8 witness: the lookup finds an upper-case stored MAC from a
lower-case argument, and rejects a MAC absent from the collection. -/
theorem mac_lookup_case_insensitive_witness :
    getDeviceFrom [⟨"AA:BB:CC:DD:EE:FF", .null⟩] "aa:bb:cc:dd:ee:ff" =
      .ok ⟨"AA:BB:CC:DD:EE:FF", .null⟩ ∧
    getClientFrom [] "aa:bb" =
      .error ⟨"Client with MAC aa:bb not found", none⟩ := by
  constructor
  · exact (mac_lookup_case_insensitive [⟨"AA:BB:CC:DD:EE:FF", .null⟩] [] "aa:bb:cc:dd:ee:ff"
      "aa:bb:cc:dd:ee:ff").2.2.1 [] ⟨"AA:BB:CC:DD:EE:FF", .null⟩ [] rfl rfl (by simp)
  · have h := (mac_lookup_case_insensitive ([] : List DeviceRec) ([] : List ClientRec)
      "aa:bb" "aa:bb").2.1 (by simp)
    simpa using h

/-- C9 counterexample: the application error the request pipeline raises
for a non-success envelope carries no code at all — refuting the claim
that every error raised by the library carries a discriminable code. -/
theorem uncoded_api_error :
    processResponse (.obj [("meta", .obj [("rc", .str "error")])]) =
      .error ⟨"API Error: Unknown error", none⟩ ∧
    (⟨"API Error: Unknown error", none⟩ : UniFiErr).code = none :=
  ⟨rfl, rfl⟩

/-- C9 (amended): only the transport-layer classification attaches codes —
every error the response interceptor constructs carries one — while the
application error of the request pipeline, the constructor configuration
error, and the not-found lookup errors all carry no code, leaving their
callers the message to branch on. -/
theorem error_codes_partition :
    (∀ url a err e, (interceptError url a err).2 = .unifi e → e.code.isSome = true) ∧
    (∀ body e, processResponse body = .error e → e.code = none) ∧
    (∀ opts e, mkUniFiAPI opts = .error e → e.code = none) ∧
    (∀ ds mac e, getDeviceFrom ds mac = .error e → e.code = none) ∧
    (∀ cs mac e, getClientFrom cs mac = .error e → e.code = none) := by
  refine ⟨fun url a err e h => ?_, fun body e h => ?_, fun opts e h => ?_,
          fun ds mac e h => ?_, fun cs mac e h => ?_⟩
  · unfold interceptError at h
    split_ifs at h <;> simp at h <;> (try subst h) <;> rfl
  · unfold processResponse at h
    split_ifs at h
    all_goals simp at h
    subst h; rfl
  · obtain ⟨oh, oport, ou, op, osite, ossl, ostrict, otime⟩ := opts
    cases oh <;> cases ou <;> cases op <;> simp [mkUniFiAPI] at h <;>
      (try split_ifs at h <;> simp at h) <;> (try subst h) <;> rfl
  · unfold getDeviceFrom at h
    split at h <;> simp at h
    subst h; rfl
  · unfold getClientFrom at h
    split at h <;> simp at h
    subst h; rfl

/-- C9 witness: the partition applied to the 401-classified error (which
carries a code) and to a concrete not-found error (which carries none). -/
theorem error_codes_partition_witness :
    (UniFiErr.code ⟨"Authentication failed", some "INVALID_CREDENTIALS"⟩).isSome = true ∧
    UniFiErr.code ⟨"Device with MAC x not found", none⟩ = none :=
  ⟨error_codes_partition.1 "u" true ⟨some 401, none⟩
      ⟨"Authentication failed", some "INVALID_CREDENTIALS"⟩ rfl,
   error_codes_partition.2.2.2.1 [] "x" ⟨"Device with MAC x not found", none⟩ rfl⟩

/-- Helper: a handler run that emitted anything passed both guards, and
its emissions are the routed notification followed by `raw_event`. -/
theorem handleEvent_ok_of_ne_nil (e : JSVal) (l : List (String × JSVal))
    (hok : handleEvent e = .ok l) (hne : l ≠ []) :
    e.truthy = true ∧ (jsGet e "meta").truthy = true ∧
    l = routeEvent (jsGet (jsGet e "meta") "message") (eventDataOf e) ++ [("raw_event", e)] := by
  by_cases he : e.truthy = true
  · have hmeta := jsGetE_of_truthy e "meta" he
    by_cases hm : (jsGet e "meta").truthy = true
    · have hmsg := jsGetE_of_truthy (jsGet e "meta") "message" hm
      have hdata := jsGetE_of_truthy e "data" he
      refine ⟨he, hm, ?_⟩
      simp [handleEvent, he, hmeta, hm, hmsg, hdata, eventDataOf] at hok
      exact hok.symm
    · exfalso
      apply hne
      simp [handleEvent, he, hmeta, hm] at hok
      exact hok
  · exfalso
    apply hne
    simp only [Bool.not_eq_true] at he
    simp [handleEvent, he] at hok
    exact hok

/-- Helper: the four recognised tags route to their named notification. -/
theorem routeEvent_known_tags (d : JSVal) :
    routeEvent (.str "sta:connect") d = [("client.connected", d)] ∧
    routeEvent (.str "sta:disconnect") d = [("client.disconnected", d)] ∧
    routeEvent (.str "ap:detected") d = [("device.detected", d)] ∧
    routeEvent (.str "ap:lost") d = [("device.lost", d)] :=
  ⟨rfl, rfl, rfl, rfl⟩

/-- Helper: any other tag routes to the generic `event` notification. -/
theorem routeEvent_default (tag d : JSVal)
    (h1 : tag ≠ .str "sta:connect") (h2 : tag ≠ .str "sta:disconnect")
    (h3 : tag ≠ .str "ap:detected") (h4 : tag ≠ .str "ap:lost") :
    routeEvent tag d = [("event", .obj [("type", tag), ("data", d)])] := by
  cases tag <;> simp_all [routeEvent]

/-- Helper: every routed emission is one of the five known shapes. -/
theorem routeEvent_cases (tag d : JSVal) :
    routeEvent tag d = [("client.connected", d)] ∨
    routeEvent tag d = [("client.disconnected", d)] ∨
    routeEvent tag d = [("device.detected", d)] ∨
    routeEvent tag d = [("device.lost", d)] ∨
    routeEvent tag d = [("event", .obj [("type", tag), ("data", d)])] := by
  cases tag
  all_goals simp [routeEvent]
  split_ifs <;> simp_all

/-- C1 counterexample: an envelope whose metadata tag is the literal
`station-connect` does not emit `client.connected` at all — it falls to
the generic `event` notification — refuting the claimed tag table. -/
theorem station_connect_tag_not_typed :
    (handleEvent (.obj [("meta", .obj [("message", .str "station-connect")]),
                        ("data", .obj [("mac", .str "AA")])])).map
        (fun l => emitCount l "client.connected") = .ok 0 ∧
    (handleEvent (.obj [("meta", .obj [("message", .str "station-connect")]),
                        ("data", .obj [("mac", .str "AA")])])).map
        (fun l => emitCount l "event") = .ok 1 :=
  ⟨rfl, rfl⟩

/-- C1 (amended): for every frame the handler does not drop, the tags
`sta:connect`, `sta:disconnect`, `ap:detected`, `ap:lost` emit exactly one
`client.connected` / `client.disconnected` / `device.detected` /
`device.lost` notification carrying the data payload (`event.data || {}`),
any other tag emits exactly one generic `event` notification carrying the
tag and that payload, and in every case exactly one `raw_event`
notification carries the original envelope. -/
theorem handleEvent_routes_tags (e : JSVal) (l : List (String × JSVal))
    (hok : handleEvent e = .ok l) (hne : l ≠ []) :
    (emitCount l "raw_event" = 1 ∧ ("raw_event", e) ∈ l) ∧
    (jsGet (jsGet e "meta") "message" = .str "sta:connect" →
      emitCount l "client.connected" = 1 ∧ ("client.connected", eventDataOf e) ∈ l) ∧
    (jsGet (jsGet e "meta") "message" = .str "sta:disconnect" →
      emitCount l "client.disconnected" = 1 ∧ ("client.disconnected", eventDataOf e) ∈ l) ∧
    (jsGet (jsGet e "meta") "message" = .str "ap:detected" →
      emitCount l "device.detected" = 1 ∧ ("device.detected", eventDataOf e) ∈ l) ∧
    (jsGet (jsGet e "meta") "message" = .str "ap:lost" →
      emitCount l "device.lost" = 1 ∧ ("device.lost", eventDataOf e) ∈ l) ∧
    ((∀ s ∈ ["sta:connect", "sta:disconnect", "ap:detected", "ap:lost"],
        jsGet (jsGet e "meta") "message" ≠ .str s) →
      emitCount l "event" = 1 ∧
      ("event", .obj [("type", jsGet (jsGet e "meta") "message"),
                      ("data", eventDataOf e)]) ∈ l) := by
  obtain ⟨he, hm, hl⟩ := handleEvent_ok_of_ne_nil e l hok hne
  subst hl
  refine ⟨⟨?_, by simp⟩, fun h => ?_, fun h => ?_, fun h => ?_, fun h => ?_, fun h => ?_⟩
  · have hz : emitCount (routeEvent (jsGet (jsGet e "meta") "message") (eventDataOf e))
        "raw_event" = 0 := by
      rcases routeEvent_cases (jsGet (jsGet e "meta") "message") (eventDataOf e) with
        h | h | h | h | h <;> simp [h, emitCount]
    unfold emitCount at hz ⊢
    rw [List.countP_append, hz]
    simp
  · rw [h, (routeEvent_known_tags (eventDataOf e)).1]
    simp [emitCount]
  · rw [h, (routeEvent_known_tags (eventDataOf e)).2.1]
    simp [emitCount]
  · rw [h, (routeEvent_known_tags (eventDataOf e)).2.2.1]
    simp [emitCount]
  · rw [h, (routeEvent_known_tags (eventDataOf e)).2.2.2]
    simp [emitCount]
  · rw [routeEvent_default _ _ (h _ (by simp)) (h _ (by simp)) (h _ (by simp)) (h _ (by simp))]
    simp [emitCount]

/-- C1 witness: the amended routing at a concrete `sta:connect` frame. -/
theorem handleEvent_routes_tags_witness :
    emitCount [("client.connected", JSVal.obj [("mac", JSVal.str "AA")]),
               ("raw_event", JSVal.obj [("meta", JSVal.obj [("message", JSVal.str "sta:connect")]),
                                        ("data", JSVal.obj [("mac", JSVal.str "AA")])])]
      "client.connected" = 1 :=
  ((handleEvent_routes_tags
      (.obj [("meta", .obj [("message", .str "sta:connect")]),
             ("data", .obj [("mac", .str "AA")])])
      [("client.connected", .obj [("mac", .str "AA")]),
       ("raw_event", .obj [("meta", .obj [("message", .str "sta:connect")]),
                           ("data", .obj [("mac", .str "AA")])])]
      rfl (by simp)).2.1 rfl).1

/-- C4 counterexample: the input `{meta:{}}` is not dropped — it emits one
typed (generic `event`) notification, refuting the claim that none of the
six malformed inputs emits a typed notification. -/
theorem meta_without_message_not_dropped :
    handleEvent (.obj [("meta", .obj [])]) =
      .ok [("event", .obj [("type", .undef), ("data", .obj [])]),
           ("raw_event", .obj [("meta", .obj [])])] ∧
    (handleEvent (.obj [("meta", .obj [])])).map typedCount = .ok 1 :=
  ⟨rfl, rfl⟩

/-- C4 (amended): none of the six malformed inputs makes the handler
throw; `null`, `undefined`, `{}`, `{meta:null}` and `{data:"x"}` are
dropped with nothing emitted, while `{meta:{}}` — whose metadata section
exists but carries no tag — emits one generic `event` notification with an
undefined tag and an empty payload, plus the `raw_event` passthrough. -/
theorem malformed_frames_never_throw :
    (handleEvent .null = .ok [] ∧ handleEvent .undef = .ok [] ∧
     handleEvent (.obj []) = .ok [] ∧ handleEvent (.obj [("meta", .null)]) = .ok [] ∧
     handleEvent (.obj [("data", .str "x")]) = .ok []) ∧
    handleEvent (.obj [("meta", .obj [])]) =
      .ok [("event", .obj [("type", .undef), ("data", .obj [])]),
           ("raw_event", .obj [("meta", .obj [])])] :=
  ⟨⟨rfl, rfl, rfl, rfl, rfl⟩, rfl⟩

end UniFi
